import Mathlib

/-!
Shallow embedding of the reply-storage models
(`clients/client-core/.../reply_storage/backend/fs_backend/models.rs`),
the sphinx packet-type tag (`common/nymsphinx/params/src/packet_types.rs`)
and the network-requester service provider
(`service-providers/network-requester/src/core.rs`), together with proofs
of the specified properties.

Bytes are modelled as `Nat` (only lengths and identities matter to the
properties below), vectors as `List Nat`, `u32`/`usize` as `Nat` with
explicit `% 2^32` where the code narrows, and timestamps as `Int`
nanoseconds.  Fallible conversions return `Except`.
-/

namespace NymModels

/-- `SENDER_TAG_SIZE` from `nymsphinx::anonymous_replies::requests` (the
crate is external to the analysed sources; the spec fixes it only as "a
fixed protocol constant", so a concrete representative value is used —
none of the proved properties depends on the particular value). -/
def SENDER_TAG_SIZE : Nat := 16

/-- `Recipient::LEN` from `nymsphinx::addressing::clients` (external
constant, concrete representative value; no property depends on it). -/
def RECIPIENT_LEN : Nat := 96

/-- `StorageError` from `fs_backend/error.rs`: the single uniform error
kind surfaced by the corruption-checking read paths. -/
inductive StorageError where
  | CorruptedData (details : String)
  deriving Repr, DecidableEq

/-- `StoredSenderTag` (models.rs lines 16-20): raw row of the
`sender_tags` table. -/
structure StoredSenderTag where
  recipient : List Nat
  tag : List Nat
  deriving Repr, DecidableEq

/-- `StoredSenderTag::new` (models.rs lines 22-29): `recipient.to_vec()`
and `tag.to_bytes().to_vec()` are identities on the underlying bytes. -/
def StoredSenderTag.new (recipient : List Nat) (tag : List Nat) :
    StoredSenderTag :=
  { recipient := recipient, tag := tag }

/-- The `CorruptedData` details produced for a wrong recipient length
(models.rs lines 37-42), built exactly as the source format string. -/
def recipientLengthDetails (recipient_len : Nat) : String :=
  "the retrieved recipient has length of " ++ toString recipient_len ++
    " while " ++ toString RECIPIENT_LEN ++ " was expected"

/-- The `CorruptedData` details produced for a wrong sender-tag length
(models.rs lines 47-52 and 140-145), built exactly as the source format
string. -/
def tagLengthDetails (tag_len : Nat) : String :=
  "the retrieved sender tag has length of " ++ toString tag_len ++
    " while " ++ toString SENDER_TAG_SIZE ++ " was expected"

/-- `TryFrom<StoredSenderTag> for (RecipientBytes, AnonymousSenderTag)`
(models.rs lines 31-60).  `Vec<u8>::try_into` an array of length `N`
succeeds exactly when the vector has length `N`; on success the bytes are
returned unchanged (`AnonymousSenderTag::from_bytes` is the identity on
the byte array). -/
def tryFromStoredSenderTag (value : StoredSenderTag) :
    Except StorageError (List Nat × List Nat) :=
  if value.recipient.length = RECIPIENT_LEN then
    if value.tag.length = SENDER_TAG_SIZE then
      .ok (value.recipient, value.tag)
    else
      .error (.CorruptedData (tagLengthDetails value.tag.length))
  else
    .error (.CorruptedData (recipientLengthDetails value.recipient.length))

/-- `StoredSurbSender` (models.rs lines 109-113): raw row of the
`surb_senders` table; `last_sent_timestamp` is in unix seconds. -/
structure StoredSurbSender where
  id : Int
  tag : List Nat
  last_sent_timestamp : Int
  deriving Repr, DecidableEq

/-- Nanoseconds per second: `OffsetDateTime` carries sub-second
precision, so absolute times are modelled as `Int` nanoseconds since the
unix epoch while stored timestamps are whole seconds. -/
def NANOS_PER_SEC : Int := 1000000000

/-- Smallest unix timestamp accepted by
`OffsetDateTime::from_unix_timestamp` (the `time` crate's default date
range starts at -9999-01-01). -/
def MIN_UNIX_TIMESTAMP : Int := -377705116800

/-- Largest unix timestamp accepted by
`OffsetDateTime::from_unix_timestamp` (the `time` crate's default date
range ends at 9999-12-31T23:59:59). -/
def MAX_UNIX_TIMESTAMP : Int := 253402300799

/-- `OffsetDateTime::from_unix_timestamp`: succeeds exactly when the
timestamp is in the representable date range, yielding the instant in
nanoseconds; otherwise a component-range error. -/
def fromUnixTimestamp (ts : Int) : Except String Int :=
  if MIN_UNIX_TIMESTAMP ≤ ts ∧ ts ≤ MAX_UNIX_TIMESTAMP then
    .ok (ts * NANOS_PER_SEC)
  else
    .error "ComponentRange"

/-- `TryFrom<time::Duration> for std::time::Duration`: the signed `time`
duration (here `Int` nanoseconds) converts to the unsigned std duration
(`Nat` nanoseconds) exactly when it is non-negative. -/
def stdDurationTryFrom (d : Int) : Except String Nat :=
  if 0 ≤ d then .ok d.toNat else .error "ConversionRange"

/-- `Instant::checked_sub`: a monotonic instant is `Nat` nanoseconds past
the earliest representable monotonic time; subtraction returns `none`
when it would go below that bound. -/
def instantCheckedSub (now : Nat) (d : Nat) : Option Nat :=
  if d ≤ now then some (now - d) else none

/-- `TryFrom<StoredSurbSender> for (AnonymousSenderTag, Instant)`
(models.rs lines 134-169), parameterised by the wall-clock time
`nowUtc` (= `OffsetDateTime::now_utc()`, in nanoseconds since the epoch)
and the monotonic time `instantNow` (= `Instant::now()`) observed during
the conversion.  The tag length is checked first; then the stored seconds
are parsed into a date, the elapsed duration `now_utc - datetime` is
narrowed to an unsigned duration (failing when negative, i.e. when the
stored timestamp is in the future), and finally
`now.checked_sub(duration).unwrap_or(now)` clamps an underflowing
monotonic subtraction to `now`. -/
def tryFromStoredSurbSender (nowUtc : Int) (instantNow : Nat)
    (value : StoredSurbSender) : Except StorageError (List Nat × Nat) :=
  if value.tag.length = SENDER_TAG_SIZE then
    match fromUnixTimestamp value.last_sent_timestamp with
    | .error err =>
        .error (.CorruptedData ("failed to parse stored timestamp - " ++ err))
    | .ok datetime =>
        match stdDurationTryFrom (nowUtc - datetime) with
        | .error err =>
            .error (.CorruptedData
              ("failed to extract valid duration from the stored timestamp - "
                ++ err))
        | .ok duration_since =>
            .ok (value.tag,
              (instantCheckedSub instantNow duration_since).getD instantNow)
  else
    .error (.CorruptedData (tagLengthDetails value.tag.length))

/-- `ReplySurbStorageMetadata` (models.rs lines 195-199): the pool
thresholds, stored as `u32` (values below `2^32`). -/
structure ReplySurbStorageMetadata where
  min_reply_surb_threshold : Nat
  max_reply_surb_threshold : Nat
  deriving Repr, DecidableEq

/-- The `u32` modulus: the Rust `as u32` cast reduces a `usize` modulo
`2^32`. -/
def U32_MOD : Nat := 2 ^ 32

/-- `ReplySurbStorageMetadata::new` (models.rs lines 201-208): narrows
each `usize` argument with `as u32`, i.e. takes it modulo `2^32`; no
validation of any kind is performed. -/
def ReplySurbStorageMetadata.new (min_reply_surb_threshold : Nat)
    (max_reply_surb_threshold : Nat) : ReplySurbStorageMetadata :=
  { min_reply_surb_threshold := min_reply_surb_threshold % U32_MOD
    max_reply_surb_threshold := max_reply_surb_threshold % U32_MOD }

end NymModels

namespace NymSphinxParams

/-- `PacketType` (packet_types.rs lines 15-28), with its `repr(u8)`
discriminants 0, 1, 2. -/
inductive PacketType where
  | Mix
  | Vpn
  | Outfox
  deriving Repr, DecidableEq

/-- The `repr(u8)` discriminant of each variant (`PacketType as u8`). -/
def PacketType.toU8 : PacketType → Nat
  | .Mix => 0
  | .Vpn => 1
  | .Outfox => 2

/-- `InvalidPacketType` (packet_types.rs lines 9-13): the error carrying
the rejected byte. -/
structure InvalidPacketType where
  received : Nat
  deriving Repr, DecidableEq

/-- `TryFrom<u8> for PacketType` (packet_types.rs lines 50-60): the match
accepts only the `Mix` and `Outfox` discriminants, in that order, and
rejects every other value with `InvalidPacketType`. -/
def PacketType.tryFrom (value : Nat) : Except InvalidPacketType PacketType :=
  if value = PacketType.Mix.toU8 then .ok .Mix
  else if value = PacketType.Outfox.toU8 then .ok .Outfox
  else .error { received := value }

end NymSphinxParams

namespace NetworkRequester

/-- A mix-network recipient address (`nymsphinx` `Recipient`, opaque to
this component), modelled as a string. -/
abbrev Recipient : Type := String

/-- An anonymous sender tag, opaque here. -/
abbrev AnonymousSenderTag : Type := List Nat

/-- `socks5_requests::Response` as constructed in core.rs:
`Response::new(conn_id, data, is_closed)`. -/
structure Response where
  conn_id : Nat
  data : List Nat
  is_closed : Bool
  deriving Repr, DecidableEq

/-- `socks5_requests::NetworkRequesterResponse` as constructed in
core.rs: `NetworkRequesterResponse::new(conn_id, network_requester_error)`. -/
structure NetworkRequesterResponse where
  conn_id : Nat
  network_requester_error : String
  deriving Repr, DecidableEq

/-- `socks5_requests::ConnectRequest`: the fields core.rs reads
(`return_address`, `remote_addr`, `conn_id`). -/
structure ConnectRequest where
  conn_id : Nat
  remote_addr : String
  return_address : Option Recipient
  deriving Repr, DecidableEq

/-- `socks5_requests::Request`: the two request kinds core.rs matches on. -/
inductive Request where
  | connect (req : ConnectRequest)
  | send (conn_id : Nat) (data : List Nat) (closed : Bool)
  deriving Repr, DecidableEq

/-- `socks5_requests::Message` (`Socks5Message`): the three message kinds
core.rs matches on. -/
inductive Socks5Message where
  | request (r : Request)
  | response (r : Response)
  | networkRequesterResponse (r : NetworkRequesterResponse)
  deriving Repr, DecidableEq

/-- Modelled from the spec: `reply::ReturnAddress` (the `reply` module is
not among the analysed sources).  §4.2: a direct ("known") return address
when an explicit recipient is present, an anonymous one when only a
sender tag is. -/
inductive ReturnAddress where
  | known (recipient : Recipient)
  | anonymous (sender_tag : AnonymousSenderTag)
  deriving Repr, DecidableEq

/-- Modelled from the spec: `reply::ReturnAddress::new(return_address,
sender_tag)`.  §4.2: prefers the explicit recipient, falls back to the
sender tag, and returns none when neither is present ("no way to
reply"). -/
def ReturnAddress.new (return_address : Option Recipient)
    (sender_tag : Option AnonymousSenderTag) : Option ReturnAddress :=
  match return_address with
  | some recipient => some (.known recipient)
  | none =>
      match sender_tag with
      | some tag => some (.anonymous tag)
      | none => none

/-- Modelled from the spec: `ControllerCommand` of the connection
controller (`proxy_helpers::connection_controller`, not among the
analysed sources).  §4.3 names the four command kinds; the `Insert`
payload channel is opaque and omitted. -/
inductive ControllerCommand where
  | insert (conn_id : Nat)
  | remove (conn_id : Nat)
  | send (conn_id : Nat) (data : List Nat) (is_close : Bool)
  | activeConnections
  deriving Repr, DecidableEq

/-- Modelled from the spec: the connection controller's internal state,
§4.3 — "a mapping from connection id to an outbound channel"; only the
key set matters here. -/
abbrev ControllerState : Type := List Nat

/-- Modelled from the spec: how the controller applies one command to its
state, §4.3 — Insert is last-writer-wins, Remove of an unknown id is a
no-op, Send and the broadcast query do not change the id set. -/
def controllerApply (st : ControllerState) : ControllerCommand → ControllerState
  | .insert conn_id => conn_id :: st.filter (· ≠ conn_id)
  | .remove conn_id => st.filter (· ≠ conn_id)
  | .send _ _ _ => st
  | .activeConnections => st

/-- The controller processes its command channel strictly in arrival
order (§4.3). -/
def controllerApplyAll (st : ControllerState)
    (cmds : List ControllerCommand) : ControllerState :=
  cmds.foldl controllerApply st

/-- The observable effects of one service-provider code path: messages
pushed into `mix_input_sender` (each paired with its return address),
commands pushed into `controller_sender`, proxy sessions spawned via
`tokio::spawn(start_proxy ...)`, and the statistics-collector
interactions (`connected_services.insert` records and
`processed(remote_addr, size)` records). -/
structure Effects where
  mix : List (Socks5Message × ReturnAddress)
  cmds : List ControllerCommand
  spawned : List (Nat × String × ReturnAddress)
  statsConnected : List (Nat × String)
  statsProcessed : List (String × Nat)
  deriving Repr, DecidableEq

/-- No effects. -/
def Effects.empty : Effects :=
  { mix := [], cmds := [], spawned := [], statsConnected := [],
    statsProcessed := [] }

/-- Sequential composition of effects. -/
def Effects.append (a b : Effects) : Effects :=
  { mix := a.mix ++ b.mix
    cmds := a.cmds ++ b.cmds
    spawned := a.spawned ++ b.spawned
    statsConnected := a.statsConnected ++ b.statsConnected
    statsProcessed := a.statsProcessed ++ b.statsProcessed }

/-- Outcome of `socks5::tcp::Connection::new` (the TCP connect attempt;
the `socks5` module is an external collaborator): either a live
connection or an error. -/
inductive ConnectOutcome where
  | ok
  | failed
  deriving Repr, DecidableEq

/-- `ServiceProvider::start_proxy` (core.rs lines 201-266), abstracted
over the TCP connect outcome and over the messages the established
proxy's `run_proxy` pumps out (`proxyMix`).  On connect failure it sends
exactly one `Response(conn_id, Vec::new(), true)` to the return address
and returns without touching the controller; on success it registers the
connection (`Insert`), runs the proxy, then deregisters it (`Remove`). -/
def startProxy (conn_id : Nat) (remote_addr : String)
    (return_address : ReturnAddress) (outcome : ConnectOutcome)
    (proxyMix : List (Socks5Message × ReturnAddress)) : Effects :=
  match outcome with
  | .failed =>
      { Effects.empty with
          mix := [(.response { conn_id := conn_id, data := [], is_closed := true },
                   return_address)] }
  | .ok =>
      { Effects.empty with
          mix := proxyMix
          cmds := [.insert conn_id, .remove conn_id] }

/-- The error text of the filter-rejection response (core.rs line 293):
`format!("Domain {remote_addr:?} failed filter check")`; the `{:?}`
debug-format of a string wraps it in quotes (escaping of inner quotes is
not modelled). -/
def filterCheckErrorMessage (remote_addr : String) : String :=
  "Domain \"" ++ remote_addr ++ "\" failed filter check"

/-- `ServiceProvider::handle_proxy_connect` (core.rs lines 268-323),
abstracted over the outbound filter (`check`, for
`self.outbound_request_filter.check`).  If no return address can be
built, the request is logged and dropped.  Otherwise, when
`!open_proxy && !check(remote_addr)`, exactly one
`NetworkRequesterResponse` naming the rejected domain is sent back and
nothing is spawned; else a proxy session for `(conn_id, remote_addr,
return_address)` is spawned. -/
def handleProxyConnect (open_proxy : Bool) (check : String → Bool)
    (sender_tag : Option AnonymousSenderTag) (connect_req : ConnectRequest) :
    Effects :=
  match ReturnAddress.new connect_req.return_address sender_tag with
  | none => Effects.empty
  | some return_address =>
      if !open_proxy && !check connect_req.remote_addr then
        { Effects.empty with
            mix := [(.networkRequesterResponse
                       { conn_id := connect_req.conn_id
                         network_requester_error :=
                           filterCheckErrorMessage connect_req.remote_addr },
                     return_address)] }
      else
        { Effects.empty with
            spawned := [(connect_req.conn_id, connect_req.remote_addr,
                         return_address)] }

/-- `ServiceProvider::handle_proxy_send` (core.rs lines 325-334): forward
to the controller's `Send` command. -/
def handleProxySend (conn_id : Nat) (data : List Nat) (closed : Bool) :
    Effects :=
  { Effects.empty with cmds := [.send conn_id data closed] }

/-- `nymsphinx::receiver::ReconstructedMessage`: the raw bytes and the
optional anonymous sender tag of one inbound mix message. -/
structure ReconstructedMessage where
  message : List Nat
  sender_tag : Option AnonymousSenderTag

/-- `ServiceProvider::handle_proxy_message` (core.rs lines 336-394),
abstracted over `Socks5Message::try_from_bytes` (`decode`, external
`socks5_requests` codec), the outbound filter, whether a statistics
collector is attached (`statsEnabled`), and the collector's
`connected_services` snapshot (`connectedLookup`).  A message whose bytes
fail to decode is logged and dropped with no effects.  A `Connect`
request first records the service in the statistics collector, then runs
`handle_proxy_connect`; a `Send` request records processed statistics and
forwards to the controller; `Response` and `NetworkRequesterResponse`
messages are ignored. -/
def handleProxyMessage (decode : List Nat → Option Socks5Message)
    (open_proxy : Bool) (check : String → Bool) (statsEnabled : Bool)
    (connectedLookup : Nat → Option String) (message : ReconstructedMessage) :
    Effects :=
  match decode message.message with
  | none => Effects.empty
  | some (.request (.connect req)) =>
      let connectEffects :=
        handleProxyConnect open_proxy check message.sender_tag req
      { connectEffects with
          statsConnected :=
            (if statsEnabled then [(req.conn_id, req.remote_addr)] else [])
              ++ connectEffects.statsConnected }
  | some (.request (.send conn_id data closed)) =>
      { handleProxySend conn_id data closed with
          statsProcessed :=
            if statsEnabled then
              match connectedLookup conn_id with
              | some remote_addr => [(remote_addr, data.length)]
              | none => []
            else [] }
  | some (.response _) => Effects.empty
  | some (.networkRequesterResponse _) => Effects.empty

/-- The inner loop of `ServiceProvider::run` (core.rs lines 451-463): the
messages of one received batch are handled one after the other; the
effects of the batch are the concatenated effects of its messages. -/
def processBatch (decode : List Nat → Option Socks5Message)
    (open_proxy : Bool) (check : String → Bool) (statsEnabled : Bool)
    (connectedLookup : Nat → Option String) :
    List ReconstructedMessage → Effects
  | [] => Effects.empty
  | message :: rest =>
      (handleProxyMessage decode open_proxy check statsEnabled
          connectedLookup message).append
        (processBatch decode open_proxy check statsEnabled connectedLookup rest)

end NetworkRequester

open NymModels NymSphinxParams NetworkRequester

/-- Composing effects on the left with no effects is the identity. -/
theorem Effects.empty_append (e : Effects) : Effects.empty.append e = e := rfl

/-- C2: for every recipient of the protocol-defined recipient length and
every sender tag of the protocol-defined tag length, building a
`StoredSenderTag` with `StoredSenderTag::new` and converting it back with
`TryFrom<StoredSenderTag>` succeeds and returns exactly the original
recipient bytes and tag. -/
theorem stored_sender_tag_roundtrip (recipient tag : List Nat)
    (hr : recipient.length = RECIPIENT_LEN)
    (ht : tag.length = SENDER_TAG_SIZE) :
    tryFromStoredSenderTag (StoredSenderTag.new recipient tag)
      = .ok (recipient, tag) := by
  simp [tryFromStoredSenderTag, StoredSenderTag.new, hr, ht]

/-- Witness for C2 at a concrete recipient and tag. -/
theorem stored_sender_tag_roundtrip_witness :
    tryFromStoredSenderTag
        (StoredSenderTag.new (List.replicate 96 0) (List.replicate 16 1))
      = .ok (List.replicate 96 0, List.replicate 16 1) :=
  stored_sender_tag_roundtrip (List.replicate 96 0) (List.replicate 16 1)
    (by decide) (by decide)

/-- C3: for every stored sender-tag row whose recipient or tag byte
length differs from the protocol-defined constant, the conversion fails
with `CorruptedData` whose details name the expected and the actual
length (the recipient length is checked first); it never succeeds. -/
theorem stored_sender_tag_corruption (value : StoredSenderTag)
    (h : value.recipient.length ≠ RECIPIENT_LEN ∨
         value.tag.length ≠ SENDER_TAG_SIZE) :
    (value.recipient.length ≠ RECIPIENT_LEN ∧
       tryFromStoredSenderTag value =
         .error (.CorruptedData
           (recipientLengthDetails value.recipient.length))) ∨
    (value.recipient.length = RECIPIENT_LEN ∧
     value.tag.length ≠ SENDER_TAG_SIZE ∧
       tryFromStoredSenderTag value =
         .error (.CorruptedData (tagLengthDetails value.tag.length))) := by
  by_cases hr : value.recipient.length = RECIPIENT_LEN
  · rcases h with h | h
    · exact absurd hr h
    · exact Or.inr ⟨hr, h, by simp [tryFromStoredSenderTag, hr, h]⟩
  · exact Or.inl ⟨hr, by simp [tryFromStoredSenderTag, hr]⟩

/-- Witness for C3 at a concrete off-by-one recipient length. -/
theorem stored_sender_tag_corruption_witness :
    ((List.replicate 95 (0 : Nat)).length ≠ RECIPIENT_LEN ∧
       tryFromStoredSenderTag
           { recipient := List.replicate 95 0, tag := List.replicate 16 0 } =
         .error (.CorruptedData (recipientLengthDetails 95))) ∨
    ((List.replicate 95 (0 : Nat)).length = RECIPIENT_LEN ∧
     (List.replicate 16 (0 : Nat)).length ≠ SENDER_TAG_SIZE ∧
       tryFromStoredSenderTag
           { recipient := List.replicate 95 0, tag := List.replicate 16 0 } =
         .error (.CorruptedData (tagLengthDetails 16))) :=
  stored_sender_tag_corruption
    { recipient := List.replicate 95 0, tag := List.replicate 16 0 }
    (Or.inl (by decide))

/-- C1 counterexample: a `StoredSurbSender` with a correct-length tag and
a timestamp one second in the future of the load-time clock (`nowUtc =
0`) is NOT reconstructed by collapsing to "now": the conversion fails
with `CorruptedData`, because the signed elapsed duration is negative and
its narrowing to an unsigned duration errors out. -/
theorem stored_surb_sender_future_counterexample :
    (List.replicate 16 (0 : Nat)).length = SENDER_TAG_SIZE ∧
    (0 : Int) < 1 * NANOS_PER_SEC ∧
    tryFromStoredSurbSender 0 0
        { id := 0, tag := List.replicate 16 0, last_sent_timestamp := 1 }
      = .error (.CorruptedData
          ("failed to extract valid duration from the stored timestamp - "
            ++ "ConversionRange")) :=
  ⟨by decide, by decide, rfl⟩

/-- C1 (amended): for every stored SURB-sender row with a correct-length
tag, (a) a timestamp strictly in the future of the load-time wall clock
makes the conversion fail cleanly with `CorruptedData` — it never
underflows, never panics and never produces a negative duration — and
(b) the collapse-to-"now" leniency applies only to past timestamps: when
the (non-negative) elapsed duration exceeds the monotonic clock value,
the conversion succeeds and the loaded instant is exactly "now". -/
theorem stored_surb_sender_timestamp_resilience (nowUtc : Int)
    (instantNow : Nat) (value : StoredSurbSender)
    (htag : value.tag.length = SENDER_TAG_SIZE) :
    (nowUtc < value.last_sent_timestamp * NANOS_PER_SEC →
       ∃ details, tryFromStoredSurbSender nowUtc instantNow value
         = .error (.CorruptedData details)) ∧
    (MIN_UNIX_TIMESTAMP ≤ value.last_sent_timestamp →
     value.last_sent_timestamp ≤ MAX_UNIX_TIMESTAMP →
     0 ≤ nowUtc - value.last_sent_timestamp * NANOS_PER_SEC →
     instantNow < (nowUtc - value.last_sent_timestamp * NANOS_PER_SEC).toNat →
       tryFromStoredSurbSender nowUtc instantNow value
         = .ok (value.tag, instantNow)) := by
  constructor
  · intro hfut
    by_cases hrange : MIN_UNIX_TIMESTAMP ≤ value.last_sent_timestamp ∧
        value.last_sent_timestamp ≤ MAX_UNIX_TIMESTAMP
    · have hneg : ¬ (0 ≤ nowUtc - value.last_sent_timestamp * NANOS_PER_SEC) :=
        not_le.mpr (sub_neg.mpr hfut)
      exact ⟨"failed to extract valid duration from the stored timestamp - "
          ++ "ConversionRange",
        by simp [tryFromStoredSurbSender, fromUnixTimestamp,
             stdDurationTryFrom, htag, hrange, hneg]⟩
    · exact ⟨"failed to parse stored timestamp - " ++ "ComponentRange",
        by simp [tryFromStoredSurbSender, fromUnixTimestamp, htag, hrange]⟩
  · intro hmin hmax hpast hclamp
    have hnot : ¬ ((nowUtc - value.last_sent_timestamp
        * NANOS_PER_SEC).toNat ≤ instantNow) := Nat.not_le.mpr hclamp
    simp [tryFromStoredSurbSender, fromUnixTimestamp, stdDurationTryFrom,
      instantCheckedSub, htag, hmin, hmax, hpast, hnot]

/-- Witness for (the amended) C1 at a concrete future timestamp. -/
theorem stored_surb_sender_timestamp_resilience_witness :
    ∃ details, tryFromStoredSurbSender 0 0
        { id := 0, tag := List.replicate 16 0, last_sent_timestamp := 1 }
      = .error (.CorruptedData details) :=
  (stored_surb_sender_timestamp_resilience 0 0
      { id := 0, tag := List.replicate 16 0, last_sent_timestamp := 1 }
      (by decide)).1 (by decide)

/-- C4: when the outbound TCP connect attempt fails, `start_proxy` emits
exactly one response frame for that connection id — empty payload, close
flag set, addressed to the resolved return address — sends no command to
the connection controller, and hence leaves the controller without an
entry for that id. -/
theorem start_proxy_connect_failure (conn_id : Nat) (remote_addr : String)
    (return_address : ReturnAddress)
    (proxyMix : List (Socks5Message × ReturnAddress)) (st : ControllerState)
    (h : conn_id ∉ st) :
    (startProxy conn_id remote_addr return_address .failed proxyMix).mix
      = [(.response { conn_id := conn_id, data := [], is_closed := true },
          return_address)] ∧
    (startProxy conn_id remote_addr return_address .failed proxyMix).cmds
      = [] ∧
    conn_id ∉ controllerApplyAll st
      (startProxy conn_id remote_addr return_address .failed proxyMix).cmds :=
  ⟨rfl, rfl, h⟩

/-- Witness for C4 at connection id 7 with an empty controller. -/
theorem start_proxy_connect_failure_witness :
    (startProxy 7 "example.com:80" (.known "client") .failed []).mix
      = [(.response { conn_id := 7, data := [], is_closed := true },
          .known "client")] ∧
    (startProxy 7 "example.com:80" (.known "client") .failed []).cmds = [] ∧
    7 ∉ controllerApplyAll []
      (startProxy 7 "example.com:80" (.known "client") .failed []).cmds :=
  start_proxy_connect_failure 7 "example.com:80" (.known "client") [] []
    (by decide)

/-- C5: with `open_proxy = false`, a connect request whose remote address
fails the outbound filter makes `handle_proxy_connect` send exactly one
`NetworkRequesterResponse` naming the failed remote address to the
resolved return address and spawn nothing; with `open_proxy = true` the
filter is never consulted (the result does not depend on it) and the
proxy session is spawned. -/
theorem handle_proxy_connect_filter (check : String → Bool)
    (sender_tag : Option AnonymousSenderTag) (connect_req : ConnectRequest)
    (return_address : ReturnAddress) :
    (ReturnAddress.new connect_req.return_address sender_tag
        = some return_address →
     check connect_req.remote_addr = false →
       handleProxyConnect false check sender_tag connect_req =
         { Effects.empty with
             mix := [(.networkRequesterResponse
                        { conn_id := connect_req.conn_id
                          network_requester_error :=
                            filterCheckErrorMessage connect_req.remote_addr },
                      return_address)] }) ∧
    (∀ check2 : String → Bool,
       handleProxyConnect true check sender_tag connect_req =
         handleProxyConnect true check2 sender_tag connect_req) ∧
    (ReturnAddress.new connect_req.return_address sender_tag
        = some return_address →
       handleProxyConnect true check sender_tag connect_req =
         { Effects.empty with
             spawned := [(connect_req.conn_id, connect_req.remote_addr,
                          return_address)] }) := by
  refine ⟨?_, ?_, ?_⟩
  · intro hra hcheck
    unfold handleProxyConnect
    rw [hra]
    simp [hcheck]
  · intro check2
    unfold handleProxyConnect
    cases hra : ReturnAddress.new connect_req.return_address sender_tag <;> rfl
  · intro hra
    unfold handleProxyConnect
    rw [hra]
    rfl

/-- Witness for C5 at a concrete rejected connect request. -/
theorem handle_proxy_connect_filter_witness :
    handleProxyConnect false (fun _ => false) none
        { conn_id := 7, remote_addr := "blocked.example",
          return_address := some "client" } =
      { Effects.empty with
          mix := [(.networkRequesterResponse
                     { conn_id := 7
                       network_requester_error :=
                         filterCheckErrorMessage "blocked.example" },
                   .known "client")] } :=
  (handle_proxy_connect_filter (fun _ => false) none
      { conn_id := 7, remote_addr := "blocked.example",
        return_address := some "client" }
      (.known "client")).1 rfl rfl

/-- C6: a connect request carrying neither an explicit return address nor
an anonymous sender tag (so `ReturnAddress::new` yields none) is logged
and discarded by `handle_proxy_connect`: no message is sent, nothing is
spawned, no state is touched, and — the function being total — no error
reaches the caller. -/
theorem handle_proxy_connect_no_return_address (open_proxy : Bool)
    (check : String → Bool) (sender_tag : Option AnonymousSenderTag)
    (connect_req : ConnectRequest)
    (h1 : connect_req.return_address = none) (h2 : sender_tag = none) :
    handleProxyConnect open_proxy check sender_tag connect_req
      = Effects.empty := by
  simp [handleProxyConnect, ReturnAddress.new, h1, h2]

/-- Witness for C6 at a concrete request with no way to reply. -/
theorem handle_proxy_connect_no_return_address_witness :
    handleProxyConnect true (fun _ => true) none
        { conn_id := 3, remote_addr := "example.com",
          return_address := none }
      = Effects.empty :=
  handle_proxy_connect_no_return_address true (fun _ => true) none
    { conn_id := 3, remote_addr := "example.com", return_address := none }
    rfl rfl

/-- C7: an inbound mix message whose bytes fail `Socks5Message`
deserialization is dropped by `handle_proxy_message` with no effects at
all — no response frame, no controller command, no spawned session, no
statistics change — and the dispatcher's batch loop goes on with the
remaining messages exactly as if the bad message were absent. -/
theorem handle_proxy_message_decode_failure
    (decode : List Nat → Option Socks5Message) (open_proxy : Bool)
    (check : String → Bool) (statsEnabled : Bool)
    (connectedLookup : Nat → Option String) (message : ReconstructedMessage)
    (rest : List ReconstructedMessage)
    (h : decode message.message = none) :
    handleProxyMessage decode open_proxy check statsEnabled connectedLookup
        message = Effects.empty ∧
    processBatch decode open_proxy check statsEnabled connectedLookup
        (message :: rest)
      = processBatch decode open_proxy check statsEnabled connectedLookup
          rest := by
  have hmsg : handleProxyMessage decode open_proxy check statsEnabled
      connectedLookup message = Effects.empty := by
    unfold handleProxyMessage
    rw [h]
  refine ⟨hmsg, ?_⟩
  show (handleProxyMessage decode open_proxy check statsEnabled
      connectedLookup message).append
        (processBatch decode open_proxy check statsEnabled connectedLookup
          rest)
    = processBatch decode open_proxy check statsEnabled connectedLookup rest
  rw [hmsg]
  exact Effects.empty_append _

/-- Witness for C7 with a decoder rejecting everything. -/
theorem handle_proxy_message_decode_failure_witness :
    handleProxyMessage (fun _ => none) false (fun _ => true) false
        (fun _ => none) { message := [255], sender_tag := none }
      = Effects.empty ∧
    processBatch (fun _ => none) false (fun _ => true) false (fun _ => none)
        [{ message := [255], sender_tag := none }]
      = processBatch (fun _ => none) false (fun _ => true) false
          (fun _ => none) [] :=
  handle_proxy_message_decode_failure (fun _ => none) false (fun _ => true)
    false (fun _ => none) { message := [255], sender_tag := none } [] rfl

/-- C8 counterexample: `ReplySurbStorageMetadata::new` performs no
validation, so `new(5, 3)` yields a value with `min = 5 > 3 = max`,
violating the claimed invariant. -/
theorem reply_surb_storage_metadata_invariant_counterexample :
    ¬ ((ReplySurbStorageMetadata.new 5 3).min_reply_surb_threshold ≤
        (ReplySurbStorageMetadata.new 5 3).max_reply_surb_threshold) := by
  decide

/-- C8 (amended): `ReplySurbStorageMetadata::new` enforces nothing, so
`min ≤ max` holds for the constructed value only when the caller already
supplies thresholds with `min ≤ max` that survive the `u32` narrowing
(i.e. `max < 2^32`). -/
theorem reply_surb_storage_metadata_invariant (min_t max_t : Nat)
    (hle : min_t ≤ max_t) (hmax : max_t < U32_MOD) :
    (ReplySurbStorageMetadata.new min_t max_t).min_reply_surb_threshold ≤
      (ReplySurbStorageMetadata.new min_t max_t).max_reply_surb_threshold := by
  unfold ReplySurbStorageMetadata.new
  rw [Nat.mod_eq_of_lt (lt_of_le_of_lt hle hmax), Nat.mod_eq_of_lt hmax]
  exact hle

/-- Witness for (the amended) C8 at concrete ordered thresholds. -/
theorem reply_surb_storage_metadata_invariant_witness :
    (ReplySurbStorageMetadata.new 10 100).min_reply_surb_threshold ≤
      (ReplySurbStorageMetadata.new 10 100).max_reply_surb_threshold :=
  reply_surb_storage_metadata_invariant 10 100 (by decide) (by decide)

/-- C9: `ReplySurbStorageMetadata::new` narrows its `usize` arguments
with an `as u32` cast: each stored threshold equals the argument modulo
`2^32`, so the constructor never rejects; in particular any argument
`≥ 2^32` is silently truncated to a different stored value. -/
theorem reply_surb_storage_metadata_new_truncates (min_t max_t : Nat) :
    ReplySurbStorageMetadata.new min_t max_t =
      { min_reply_surb_threshold := min_t % 2 ^ 32
        max_reply_surb_threshold := max_t % 2 ^ 32 } ∧
    (2 ^ 32 ≤ min_t →
      (ReplySurbStorageMetadata.new min_t max_t).min_reply_surb_threshold
        ≠ min_t) := by
  refine ⟨rfl, ?_⟩
  intro hge
  have hlt : min_t % 2 ^ 32 < 2 ^ 32 :=
    Nat.mod_lt min_t (by norm_num)
  show min_t % 2 ^ 32 ≠ min_t
  omega

/-- Witness for C9 at the first truncated threshold value. -/
theorem reply_surb_storage_metadata_new_truncates_witness :
    (ReplySurbStorageMetadata.new (2 ^ 32) 7).min_reply_surb_threshold
      ≠ 2 ^ 32 :=
  (reply_surb_storage_metadata_new_truncates (2 ^ 32) 7).2 (le_refl _)

/-- C10: `PacketType::try_from` succeeds exactly on the bytes 0 (`Mix`)
and 2 (`Outfox`) and rejects every other byte with `InvalidPacketType`
carrying it; the round trip through the `repr(u8)` discriminant holds for
`Mix` and `Outfox` but fails for `Vpn`, whose discriminant 1 is
rejected. -/
theorem packet_type_try_from (v : Nat) (h : v < 256) :
    ((PacketType.tryFrom v).isOk ↔ v = 0 ∨ v = 2) ∧
    (v = 0 → PacketType.tryFrom v = .ok .Mix) ∧
    (v = 2 → PacketType.tryFrom v = .ok .Outfox) ∧
    (v ≠ 0 → v ≠ 2 → PacketType.tryFrom v = .error { received := v }) ∧
    PacketType.tryFrom PacketType.Mix.toU8 = .ok .Mix ∧
    PacketType.tryFrom PacketType.Outfox.toU8 = .ok .Outfox ∧
    PacketType.tryFrom PacketType.Vpn.toU8
      = .error { received := PacketType.Vpn.toU8 } := by
  by_cases h0 : v = 0 <;> by_cases h2 : v = 2 <;>
    simp_all [PacketType.tryFrom, PacketType.toU8, Except.isOk, Except.toBool]

/-- Witness for C10 at the rejected byte 5 (and at the three variants). -/
theorem packet_type_try_from_witness :
    PacketType.tryFrom 5 = .error { received := 5 } :=
  (packet_type_try_from 5 (by decide)).2.2.2.1 (by decide) (by decide)
